import Mathlib

/-!
Shallow embedding of the ChatPage component of the AI-chatbot front-end
(src/unnamed/part_000) and proofs about its conversation-session logic.

The component keeps five pieces of reactive state (`inputMessage`,
`messages`, `isLoading`, `error`, `related`), reads an auth token from
browser storage, and exposes the handlers `sendMessage`, `handleSubmit`,
`handleRelatedClick`, `handleClear`, `handleLogout`.  Each handler is
embedded as a pure function; the network round-trip inside `sendMessage`
(its sole `await`) is modelled by passing in the fetch outcome, and the
two wall-clock reads `Date.now()` are modelled by explicit `Nat`
parameters.  Side effects (the fetch request issued, navigation) are
returned explicitly.
-/

namespace ChatPage

/-- The `sender` field of a message: `"user" | "bot"`. -/
inductive Sender where
  | user
  | bot
deriving DecidableEq, Repr

/-- The optional `status` field of a message: `"sent" | "delivered" | "error"`.
Never assigned by the code in part_000 but part of the declared type. -/
inductive MsgStatus where
  | sent
  | delivered
  | error
deriving DecidableEq, Repr

/-- The `Message` record type of part_000 lines 4-10.  `id` and `timestamp`
are strings produced from the clock; `status` is optional and in fact never
set by this component. -/
structure Message where
  id : String
  text : String
  sender : Sender
  timestamp : String
  status : Option MsgStatus
deriving DecidableEq, Repr

/-- `Related = Record<string, string>` (part_000 line 12): a JS object mapping
intent keys to question strings, embedded as its ordered entry list. -/
abbrev Related : Type := List (String × String)

/-- The five `useState` cells of the component (part_000 lines 15-19). -/
structure ChatState where
  inputMessage : String
  messages : List Message
  isLoading : Bool
  error : String
  related : Option Related
deriving DecidableEq

/-- `localStorage` as far as this component reads it: the value stored under
the fixed key `"token"`, or `none` when absent. -/
structure Storage where
  token : Option String
deriving DecidableEq

/-- Component state together with the ambient storage it reads. -/
structure World where
  storage : Storage
  chat : ChatState
deriving DecidableEq

/-- The observable content of the single `fetch` call issued by
`sendMessage` (part_000 lines 63-70).  `bodyMessage` is the value of the
`message` field of the JSON body `JSON.stringify(\x7b message: userMessage.text \x7d)`. -/
structure Request where
  url : String
  method : String
  contentType : String
  authorization : String
  bodyMessage : String
deriving DecidableEq, Repr

/-- Effects a handler performs besides updating state: the list of network
requests issued and the list of navigation targets signalled. -/
structure SendEffects where
  requests : List Request
  navigations : List String
deriving DecidableEq, Repr

/-- No network request, no navigation. -/
def noEffects : SendEffects := { requests := [], navigations := [] }

/-- A JS exception value as the `catch` block distinguishes them:
an `Error` instance carrying `err.message`, or any other thrown value. -/
inductive ThrownValue where
  | errorObj (msg : String)
  | nonError
deriving DecidableEq, Repr

/-- The fixed string `"Failed to send message"`: both the message of the
`Error` thrown on a non-ok response (line 71) and the fallback the catch
block uses for non-`Error` thrown values (line 82). -/
def genericFailure : String := "Failed to send message"

/-- `err instanceof Error ? err.message : "Failed to send message"`
(part_000 line 82). -/
def thrownMessage : ThrownValue → String
  | ThrownValue.errorObj m => m
  | ThrownValue.nonError => genericFailure

/-- The success-response JSON body as the wire protocol describes it and as
lines 75 and 80 consume it: optional string fields `message` and `reply`
(a missing field reads as undefined, hence `none`) and an optional
`related` object.  A present-but-empty string is distinct from a missing
field because JS `||` treats `""` as falsy. -/
structure RespBody where
  message : Option String
  reply : Option String
  related : Option Related
deriving DecidableEq

/-- Result of `await response.json()`: a parsed body, or a thrown parse
error (the code never inspects which; any thrown value is caught). -/
inductive JsonParse where
  | parsed (body : RespBody)
  | parseError (e : ThrownValue)
deriving DecidableEq

/-- How the `fetch` at part_000 line 63 settles: the promise rejects with a
thrown value, or resolves to a response with an `ok` flag; the body (its
JSON parse result) is only ever consumed on the `ok` path. -/
inductive FetchOutcome where
  | reject (e : ThrownValue)
  | resp (ok : Bool) (parse : JsonParse)
deriving DecidableEq

/-- JS string truthiness: `undefined` and `""` are falsy, every other
string is truthy. -/
def strTruthy : Option String → Bool
  | none => false
  | some s => s != ""

/-- JS `v || d` for an optional string `v`: keep `v` when present and
truthy (non-empty), otherwise `d`. -/
def jsStrOr (v : Option String) (d : String) : String :=
  match v with
  | some s => if s == "" then d else s
  | none => d

/-- The fixed placeholder of part_000 line 75. -/
def fallbackText : String := "Sorry, I could not process your request."

/-- `data.message || data.reply || "Sorry, I could not process your request."`
(part_000 line 75). -/
def extractReply (body : RespBody) : String :=
  jsStrOr body.message (jsStrOr body.reply fallbackText)

/-- The user `Message` built at part_000 lines 51-56:
`id = Date.now().toString()`, the submitted text, sender `"user"`, the
current ISO timestamp (opaque string parameter `ts`), no status. -/
def userMessageOf (messageText : String) (now : Nat) (ts : String) : Message :=
  { id := Nat.repr now
    text := messageText
    sender := Sender.user
    timestamp := ts
    status := none }

/-- The bot `Message` built at part_000 lines 73-78:
`id = (Date.now() + 1).toString()` read at response time, text extracted
from the body, sender `"bot"`, fresh timestamp, no status. -/
def botMessageOf (body : RespBody) (respNow : Nat) (ts : String) : Message :=
  { id := Nat.repr (respNow + 1)
    text := extractReply body
    sender := Sender.bot
    timestamp := ts
    status := none }

/-- The request of part_000 lines 63-70: `POST http://localhost:3000/api/message`
with bearer authorization, JSON content type, and body carrying the user
message text (`JSON.stringify(\x7b message: userMessage.text \x7d)`, and
`userMessage.text` is the `messageText` argument). -/
def requestOf (tok messageText : String) : Request :=
  { url := "http://localhost:3000/api/message"
    method := "POST"
    contentType := "application/json"
    authorization := "Bearer " ++ tok
    bodyMessage := messageText }

/-- State updates of part_000 lines 51-61, all applied before the `await`:
append the user message, set `isLoading`, clear the input buffer, clear
`error`, clear `related`. -/
def sendMessagePre (messageText : String) (now : Nat) (ts1 : String) (st : ChatState) : ChatState :=
  { st with
    messages := st.messages ++ [userMessageOf messageText now ts1]
    isLoading := true
    inputMessage := ""
    error := ""
    related := none }

/-- State updates applied once the fetch settles (part_000 lines 71-85):
on a rejected promise or a JSON parse error, set `error` from the thrown
value; on a non-ok response, the thrown `Error("Failed to send message")`
is caught without the body ever being parsed; on a parsed ok response,
append the bot message and replace `related` with `data.related || null`.
The `finally` block sets `isLoading` back to `false` in every case. -/
def sendMessageSettle (o : FetchOutcome) (respNow : Nat) (ts2 : String) (st : ChatState) : ChatState :=
  match o with
  | FetchOutcome.reject e => { st with error := thrownMessage e, isLoading := false }
  | FetchOutcome.resp ok parse =>
    if ok then
      match parse with
      | JsonParse.parseError e => { st with error := thrownMessage e, isLoading := false }
      | JsonParse.parsed body =>
        { st with
          messages := st.messages ++ [botMessageOf body respNow ts2]
          related := body.related
          isLoading := false }
    else { st with error := genericFailure, isLoading := false }

/-- `sendMessage` (part_000 lines 45-86).  Reads the token from storage;
when absent it navigates to `/login` and returns with nothing else done.
Otherwise it applies the pre-await updates, issues exactly one request,
and applies the settle updates for the given fetch outcome.  `now`/`ts1`
are the clock reads at call time, `respNow`/`ts2` at response time. -/
def sendMessage (messageText : String) (now : Nat) (ts1 : String)
    (o : FetchOutcome) (respNow : Nat) (ts2 : String) (w : World) : World × SendEffects :=
  match w.storage.token with
  | none => (w, { requests := [], navigations := ["/login"] })
  | some tok =>
    ({ w with chat := sendMessageSettle o respNow ts2 (sendMessagePre messageText now ts1 w.chat) },
     { requests := [requestOf tok messageText], navigations := [] })

/-- `handleSubmit` (part_000 lines 88-92): return unchanged when the
trimmed input is empty or a send is in flight, otherwise send the
(untrimmed) input buffer.  The input's Enter-key handler (line 229) calls
this same function. -/
def handleSubmit (now : Nat) (ts1 : String)
    (o : FetchOutcome) (respNow : Nat) (ts2 : String) (w : World) : World × SendEffects :=
  if w.chat.inputMessage.trim == "" || w.chat.isLoading then (w, noEffects)
  else sendMessage w.chat.inputMessage now ts1 o respNow ts2 w

/-- `handleRelatedClick` (part_000 lines 94-96): send the given string. -/
def handleRelatedClick (intent : String) (now : Nat) (ts1 : String)
    (o : FetchOutcome) (respNow : Nat) (ts2 : String) (w : World) : World × SendEffects :=
  sendMessage intent now ts1 o respNow ts2 w

/-- The suggestion button for the entry `(intent, question)` of the related
mapping (part_000 lines 181-190): its label shows `question`, but its
`onClick` invokes `handleRelatedClick(intent)` with the key. -/
def relatedButtonClick (entry : String × String) (now : Nat) (ts1 : String)
    (o : FetchOutcome) (respNow : Nat) (ts2 : String) (w : World) : World × SendEffects :=
  handleRelatedClick entry.fst now ts1 o respNow ts2 w

/-- `handleClear` (part_000 lines 39-43): empty the message list, clear the
error, clear the related map.  Touches neither storage, nor `isLoading`,
nor the input buffer. -/
def handleClear (w : World) : World :=
  { w with chat := { w.chat with messages := [], error := "", related := none } }

/-- `handleLogout` (part_000 lines 34-37): remove the token and navigate. -/
def handleLogout (w : World) : World × SendEffects :=
  ({ w with storage := { token := none } }, { requests := [], navigations := ["/login"] })

/-- One `sendMessage` invocation's inputs, for reasoning about sequences of
calls: the submitted text, both clock reads, both timestamps, and how the
fetch settled. -/
structure SendCall where
  text : String
  now : Nat
  ts1 : String
  outcome : FetchOutcome
  respNow : Nat
  ts2 : String
deriving DecidableEq

/-- State transition of one `sendMessage` call. -/
def sendStep (c : SendCall) (w : World) : World :=
  (sendMessage c.text c.now c.ts1 c.outcome c.respNow c.ts2 w).fst

/-- Run a sequence of `sendMessage` calls in order. -/
def runSends : List SendCall → World → World
  | [], w => w
  | c :: cs, w => runSends cs (sendStep c w)

/-- Classification of fetch outcomes by the failure path of part_000
lines 71-82: a rejected fetch or a JSON parse error surfaces the thrown
value's message, a non-ok response surfaces the generic failure string,
and a parsed ok response is not a failure. -/
def failDesc : FetchOutcome → Option String
  | FetchOutcome.reject e => some (thrownMessage e)
  | FetchOutcome.resp true (JsonParse.parsed _) => none
  | FetchOutcome.resp true (JsonParse.parseError e) => some (thrownMessage e)
  | FetchOutcome.resp false _ => some genericFailure

/-! ### Injectivity of the decimal representation used for message ids

Both message ids are produced by JS `Number.prototype.toString` on a
millisecond clock value, embedded as `Nat.repr`.  To reason about id
distinctness we prove `Nat.repr` injective via a left inverse that decodes
a decimal digit string. -/

/-- Numeric value of a decimal digit character. -/
def decDigit (c : Char) : Nat := c.toNat - 48

/-- Decode a digit string left to right onto an accumulator. -/
def decChars (a : Nat) : List Char → Nat
  | [] => a
  | c :: cs => decChars (a * 10 + decDigit c) cs

theorem decDigit_digitChar (d : Nat) (h : d < 10) : decDigit (Nat.digitChar d) = d := by
  interval_cases d <;> decide

theorem toDigitsCore_succ (b fuel n : Nat) (ds : List Char) :
    Nat.toDigitsCore b (fuel + 1) n ds =
      if n / b = 0 then Nat.digitChar (n % b) :: ds
      else Nat.toDigitsCore b fuel (n / b) (Nat.digitChar (n % b) :: ds) := rfl

theorem decChars_cons (a : Nat) (c : Char) (cs : List Char) :
    decChars a (c :: cs) = decChars (a * 10 + decDigit c) cs := rfl

theorem decChars_nil (a : Nat) : decChars a [] = a := rfl

theorem decChars_toDigitsCore (fuel : Nat) :
    ∀ (n a : Nat) (ds : List Char), 0 < n → n < 10 ^ fuel →
    ∃ k, decChars a (Nat.toDigitsCore 10 fuel n ds) = decChars (a * 10 ^ k + n) ds := by
  induction fuel with
  | zero =>
    intro n _ _ hn hlt
    simp only [pow_zero] at hlt
    omega
  | succ fuel ih =>
    intro n a ds hn hlt
    have hd : decDigit (Nat.digitChar (n % 10)) = n % 10 :=
      decDigit_digitChar _ (Nat.mod_lt _ (by norm_num))
    by_cases hdiv : n / 10 = 0
    · refine ⟨1, ?_⟩
      have hn10 : n < 10 := by omega
      rw [toDigitsCore_succ, if_pos hdiv, decChars_cons, hd, Nat.mod_eq_of_lt hn10, pow_one]
    · have hpos : 0 < n / 10 := Nat.pos_of_ne_zero hdiv
      have hlt2 : n / 10 < 10 ^ fuel := by
        rw [pow_succ] at hlt
        exact (Nat.div_lt_iff_lt_mul (by norm_num)).mpr hlt
      obtain ⟨k, hk⟩ := ih (n / 10) a (Nat.digitChar (n % 10) :: ds) hpos hlt2
      refine ⟨k + 1, ?_⟩
      have harith : (a * 10 ^ k + n / 10) * 10 + n % 10 = a * 10 ^ (k + 1) + n := by
        rw [pow_succ, ← Nat.mul_assoc]
        generalize a * 10 ^ k = A
        omega
      calc decChars a (Nat.toDigitsCore 10 (fuel + 1) n ds)
          = decChars a (Nat.toDigitsCore 10 fuel (n / 10) (Nat.digitChar (n % 10) :: ds)) := by
            rw [toDigitsCore_succ, if_neg hdiv]
        _ = decChars (a * 10 ^ k + n / 10) (Nat.digitChar (n % 10) :: ds) := hk
        _ = decChars ((a * 10 ^ k + n / 10) * 10 + n % 10) ds := by
            rw [decChars_cons, hd]
        _ = decChars (a * 10 ^ (k + 1) + n) ds := by rw [harith]

theorem decChars_toDigits (n : Nat) : decChars 0 (Nat.toDigits 10 n) = n := by
  cases n with
  | zero => decide
  | succ m =>
    have hlt : m + 1 < 10 ^ (m + 1 + 1) :=
      Nat.lt_of_lt_of_le (Nat.lt_pow_self (by norm_num) (m + 1))
        (Nat.pow_le_pow_right (by norm_num) (Nat.le_succ _))
    obtain ⟨k, hk⟩ := decChars_toDigitsCore (m + 1 + 1) (m + 1) 0 [] (Nat.succ_pos m) hlt
    show decChars 0 (Nat.toDigitsCore 10 (m + 1 + 1) (m + 1) []) = m + 1
    rw [hk, decChars_nil, Nat.zero_mul, Nat.zero_add]

theorem natRepr_injective : Function.Injective Nat.repr := by
  intro m n h
  have hdata : Nat.toDigits 10 m = Nat.toDigits 10 n := by
    have h2 := congrArg String.data h
    simpa [Nat.repr, List.asString] using h2
  have h3 := congrArg (decChars 0) hdata
  rwa [decChars_toDigits, decChars_toDigits] at h3

/-- Claim C4: when the AuthToken is absent from storage, `sendMessage`
signals navigation to `/login` and returns with the entire state (messages,
pending flag, lastError, related, input buffer) unchanged and no network
request issued. -/
theorem c4_no_token_aborts (messageText : String) (now : Nat) (ts1 : String)
    (o : FetchOutcome) (respNow : Nat) (ts2 : String) (w : World)
    (h : w.storage.token = none) :
    sendMessage messageText now ts1 o respNow ts2 w =
      (w, { requests := [], navigations := ["/login"] }) := by
  simp [sendMessage, h]

theorem c4_no_token_aborts_witness :
    sendMessage "hi" 0 "T1" (FetchOutcome.reject ThrownValue.nonError) 0 "T2"
      { storage := { token := none },
        chat := { inputMessage := "hi", messages := [], isLoading := false,
                  error := "", related := none } } =
      ({ storage := { token := none },
         chat := { inputMessage := "hi", messages := [], isLoading := false,
                   error := "", related := none } },
       { requests := [], navigations := ["/login"] }) :=
  c4_no_token_aborts "hi" 0 "T1" (FetchOutcome.reject ThrownValue.nonError) 0 "T2" _ rfl

/-- Claim C6: `handleClear` resets `messages` to the empty list, `error` to
empty and `related` to none, while leaving the stored token and the
`isLoading` (pending) flag — and the input buffer — unchanged. -/
theorem c6_clear_semantics (w : World) :
    handleClear w =
      { storage := w.storage,
        chat := { inputMessage := w.chat.inputMessage
                  messages := []
                  isLoading := w.chat.isLoading
                  error := ""
                  related := none } } := rfl

/-- Claim C7: with the AuthToken present, `sendMessage` factors through the
pre-await update `sendMessagePre`, and that update already has `error`
cleared to empty and `related` cleared to none — so a `lastError` left by a
prior failed send is cleared before the new network call resolves,
whatever its outcome turns out to be. -/
theorem c7_error_reset_before_resolve (messageText : String) (now : Nat) (ts1 : String)
    (st : ChatState) :
    (sendMessagePre messageText now ts1 st).error = "" ∧
    (sendMessagePre messageText now ts1 st).related = none ∧
    ∀ (o : FetchOutcome) (respNow : Nat) (ts2 : String) (w : World) (tok : String),
      w.storage.token = some tok →
      (sendMessage messageText now ts1 o respNow ts2 w).fst.chat =
        sendMessageSettle o respNow ts2 (sendMessagePre messageText now ts1 w.chat) := by
  refine ⟨rfl, rfl, ?_⟩
  intro o respNow ts2 w tok htok
  simp [sendMessage, htok]

theorem c7_error_reset_before_resolve_witness :
    (sendMessagePre "hi" 0 "T1"
      { inputMessage := "hi", messages := [], isLoading := false,
        error := "previous failure", related := some [("k", "q")] }).error = "" ∧
    (sendMessagePre "hi" 0 "T1"
      { inputMessage := "hi", messages := [], isLoading := false,
        error := "previous failure", related := some [("k", "q")] }).related = none :=
  ⟨(c7_error_reset_before_resolve "hi" 0 "T1"
      { inputMessage := "hi", messages := [], isLoading := false,
        error := "previous failure", related := some [("k", "q")] }).1,
   (c7_error_reset_before_resolve "hi" 0 "T1"
      { inputMessage := "hi", messages := [], isLoading := false,
        error := "previous failure", related := some [("k", "q")] }).2.1⟩

/-- Claim C8: with the AuthToken present, `sendMessage` issues exactly one
network request — a POST to the fixed message endpoint with bearer
authorization, JSON content type, and a body whose `message` field is the
appended user message's text (which equals the submitted text); the
requests list is a singleton whatever the outcome, so no retry occurs on
failure. -/
theorem c8_request_shape (messageText : String) (now : Nat) (ts1 : String)
    (o : FetchOutcome) (respNow : Nat) (ts2 : String) (w : World) (tok : String)
    (htok : w.storage.token = some tok) :
    (sendMessage messageText now ts1 o respNow ts2 w).snd.requests =
      [{ url := "http://localhost:3000/api/message"
         method := "POST"
         contentType := "application/json"
         authorization := "Bearer " ++ tok
         bodyMessage := (userMessageOf messageText now ts1).text }] ∧
    (userMessageOf messageText now ts1).text = messageText := by
  refine ⟨?_, rfl⟩
  simp [sendMessage, htok, requestOf, userMessageOf]

theorem c8_request_shape_witness :
    (sendMessage "hello" 7 "T1" (FetchOutcome.resp false (JsonParse.parseError ThrownValue.nonError)) 8 "T2"
      { storage := { token := some "tok" },
        chat := { inputMessage := "hello", messages := [], isLoading := false,
                  error := "", related := none } }).snd.requests =
      [{ url := "http://localhost:3000/api/message"
         method := "POST"
         contentType := "application/json"
         authorization := "Bearer " ++ "tok"
         bodyMessage := (userMessageOf "hello" 7 "T1").text }] :=
  (c8_request_shape "hello" 7 "T1"
    (FetchOutcome.resp false (JsonParse.parseError ThrownValue.nonError)) 8 "T2"
    { storage := { token := some "tok" },
      chat := { inputMessage := "hello", messages := [], isLoading := false,
                error := "", related := none } } "tok" rfl).1

/-- Claim C10: when a send is in flight (`isLoading = true`) or the input
buffer trims to empty, the submit handler — which is also what the
Enter-key path invokes — returns the state unchanged and performs no
network call and no navigation. -/
theorem c10_submit_guard (now : Nat) (ts1 : String) (o : FetchOutcome)
    (respNow : Nat) (ts2 : String) (w : World)
    (h : w.chat.inputMessage.trim = "" ∨ w.chat.isLoading = true) :
    handleSubmit now ts1 o respNow ts2 w = (w, noEffects) := by
  rcases h with h | h <;> simp [handleSubmit, h]

theorem c10_submit_guard_witness :
    handleSubmit 4 "T1" (FetchOutcome.reject ThrownValue.nonError) 5 "T2"
      { storage := { token := some "tok" },
        chat := { inputMessage := "pending question", messages := [], isLoading := true,
                  error := "", related := none } } =
      ({ storage := { token := some "tok" },
         chat := { inputMessage := "pending question", messages := [], isLoading := true,
                   error := "", related := none } }, noEffects) :=
  c10_submit_guard 4 "T1" (FetchOutcome.reject ThrownValue.nonError) 5 "T2" _
    (Or.inr rfl)

/-- Claim C1: on a successful send the appended bot message's text is
`data.message || data.reply || fallback`: a present non-empty `message`
field wins, else a present non-empty `reply` field, else the fixed
placeholder when neither field is present and truthy. -/
theorem c1_reply_precedence (b : RespBody) (messageText : String) (now : Nat) (ts1 : String)
    (respNow : Nat) (ts2 : String) (w : World) (tok : String)
    (htok : w.storage.token = some tok) :
    (sendMessage messageText now ts1 (FetchOutcome.resp true (JsonParse.parsed b))
        respNow ts2 w).fst.chat.messages =
      w.chat.messages ++ [userMessageOf messageText now ts1, botMessageOf b respNow ts2] ∧
    (botMessageOf b respNow ts2).text = extractReply b ∧
    (∀ (A B : String) (rel : Option Related), A ≠ "" →
      extractReply { message := some A, reply := some B, related := rel } = A) ∧
    (∀ (B : String) (rel : Option Related), B ≠ "" →
      extractReply { message := none, reply := some B, related := rel } = B) ∧
    (∀ b2 : RespBody, strTruthy b2.message = false → strTruthy b2.reply = false →
      extractReply b2 = fallbackText) := by
  refine ⟨?_, rfl, ?_, ?_, ?_⟩
  · simp [sendMessage, htok, sendMessageSettle, sendMessagePre]
  · intro A B rel hA
    simp [extractReply, jsStrOr, hA]
  · intro B rel hB
    simp [extractReply, jsStrOr, hB]
  · intro b2 h1 h2
    rcases b2 with ⟨bm, br, brel⟩
    rcases bm with _ | s
    · rcases br with _ | r
      · rfl
      · have hr : r = "" := by simpa [strTruthy] using h2
        subst hr; rfl
    · have hs : s = "" := by simpa [strTruthy] using h1
      subst hs
      rcases br with _ | r
      · rfl
      · have hr : r = "" := by simpa [strTruthy] using h2
        subst hr; rfl

theorem c1_reply_precedence_witness :
    extractReply { message := some "A", reply := some "B", related := none } = "A" ∧
    extractReply { message := none, reply := some "B", related := none } = "B" ∧
    extractReply { message := none, reply := none, related := none } = fallbackText :=
  have h := c1_reply_precedence { message := none, reply := none, related := none }
    "q" 0 "T1" 1 "T2"
    { storage := { token := some "tok" },
      chat := { inputMessage := "", messages := [], isLoading := false,
                error := "", related := none } } "tok" rfl
  ⟨h.2.2.1 "A" "B" none (by decide), h.2.2.2.1 "B" none (by decide),
   h.2.2.2.2 { message := none, reply := none, related := none } rfl rfl⟩

/-- Claim C5: on every failing outcome (rejected fetch, non-ok status, or
JSON parse error on an ok body) `error` is set to the failure's message —
the thrown value's message, or the generic fallback when the thrown value
is not an `Error` — no bot message is appended (only the user message was),
`isLoading` is set back to false, and on a non-ok status the result is
independent of the response body, which is never inspected. -/
theorem c5_failure_path (messageText : String) (now : Nat) (ts1 : String)
    (o : FetchOutcome) (respNow : Nat) (ts2 : String) (w : World) (tok d : String)
    (htok : w.storage.token = some tok) (hfail : failDesc o = some d) :
    (sendMessage messageText now ts1 o respNow ts2 w).fst.chat.error = d ∧
    (sendMessage messageText now ts1 o respNow ts2 w).fst.chat.messages =
      w.chat.messages ++ [userMessageOf messageText now ts1] ∧
    (sendMessage messageText now ts1 o respNow ts2 w).fst.chat.isLoading = false ∧
    ∀ p q : JsonParse,
      sendMessage messageText now ts1 (FetchOutcome.resp false p) respNow ts2 w =
        sendMessage messageText now ts1 (FetchOutcome.resp false q) respNow ts2 w := by
  have hbody : ∀ p q : JsonParse,
      sendMessage messageText now ts1 (FetchOutcome.resp false p) respNow ts2 w =
        sendMessage messageText now ts1 (FetchOutcome.resp false q) respNow ts2 w := by
    intro p q
    simp [sendMessage, htok, sendMessageSettle]
  rcases o with e | ⟨ok, parse⟩
  · have hd : d = thrownMessage e := by
      have := hfail
      simp [failDesc] at this
      exact this.symm
    subst hd
    exact ⟨by simp [sendMessage, htok, sendMessageSettle, sendMessagePre],
           by simp [sendMessage, htok, sendMessageSettle, sendMessagePre],
           by simp [sendMessage, htok, sendMessageSettle, sendMessagePre], hbody⟩
  · cases ok
    · have hd : d = genericFailure := by
        have := hfail
        simp [failDesc] at this
        exact this.symm
      subst hd
      exact ⟨by simp [sendMessage, htok, sendMessageSettle, sendMessagePre],
             by simp [sendMessage, htok, sendMessageSettle, sendMessagePre],
             by simp [sendMessage, htok, sendMessageSettle, sendMessagePre], hbody⟩
    · rcases parse with body | e
      · exact absurd hfail (by simp [failDesc])
      · have hd : d = thrownMessage e := by
          have := hfail
          simp [failDesc] at this
          exact this.symm
        subst hd
        exact ⟨by simp [sendMessage, htok, sendMessageSettle, sendMessagePre],
               by simp [sendMessage, htok, sendMessageSettle, sendMessagePre],
               by simp [sendMessage, htok, sendMessageSettle, sendMessagePre], hbody⟩

theorem c5_failure_path_witness :
    (sendMessage "hi" 2 "T1" (FetchOutcome.resp false (JsonParse.parsed
        { message := some "ignored", reply := none, related := none })) 3 "T2"
      { storage := { token := some "tok" },
        chat := { inputMessage := "hi", messages := [], isLoading := false,
                  error := "", related := none } }).fst.chat.error = genericFailure ∧
    (sendMessage "hi" 2 "T1" (FetchOutcome.resp false (JsonParse.parsed
        { message := some "ignored", reply := none, related := none })) 3 "T2"
      { storage := { token := some "tok" },
        chat := { inputMessage := "hi", messages := [], isLoading := false,
                  error := "", related := none } }).fst.chat.messages =
      [] ++ [userMessageOf "hi" 2 "T1"] :=
  have h := c5_failure_path "hi" 2 "T1"
    (FetchOutcome.resp false (JsonParse.parsed
      { message := some "ignored", reply := none, related := none })) 3 "T2"
    { storage := { token := some "tok" },
      chat := { inputMessage := "hi", messages := [], isLoading := false,
                error := "", related := none } } "tok" genericFailure rfl rfl
  ⟨h.1, h.2.1⟩

theorem sendStep_messages (c : SendCall) (w : World) :
    ∃ tail, (sendStep c w).chat.messages = w.chat.messages ++ tail := by
  cases htok : w.storage.token with
  | none => exact ⟨[], by simp [sendStep, sendMessage, htok]⟩
  | some tok =>
    rcases ho : c.outcome with e | ⟨ok, parse⟩
    · exact ⟨[userMessageOf c.text c.now c.ts1], by
        simp [sendStep, sendMessage, htok, ho, sendMessageSettle, sendMessagePre]⟩
    · cases ok
      · exact ⟨[userMessageOf c.text c.now c.ts1], by
          simp [sendStep, sendMessage, htok, ho, sendMessageSettle, sendMessagePre]⟩
      · rcases parse with body | e
        · exact ⟨[userMessageOf c.text c.now c.ts1, botMessageOf body c.respNow c.ts2], by
            simp [sendStep, sendMessage, htok, ho, sendMessageSettle, sendMessagePre]⟩
        · exact ⟨[userMessageOf c.text c.now c.ts1], by
            simp [sendStep, sendMessage, htok, ho, sendMessageSettle, sendMessagePre]⟩

/-- Claim C3: over any sequence of `sendMessage` calls (successful or
failed, with or without a token), the message list only ever grows by
appending: its length is monotonically non-decreasing, the prior entries
are still there unchanged as the prefix of the new list, and the new list
is the old list followed by some tail. -/
theorem c3_append_only (cs : List SendCall) (w : World) :
    w.chat.messages.length ≤ (runSends cs w).chat.messages.length ∧
    (runSends cs w).chat.messages.take w.chat.messages.length = w.chat.messages ∧
    ∃ tail, (runSends cs w).chat.messages = w.chat.messages ++ tail := by
  have main : ∀ (cs : List SendCall) (w : World),
      ∃ tail, (runSends cs w).chat.messages = w.chat.messages ++ tail := by
    intro cs
    induction cs with
    | nil => intro w; exact ⟨[], by simp [runSends]⟩
    | cons c cs ih =>
      intro w
      obtain ⟨t1, h1⟩ := sendStep_messages c w
      obtain ⟨t2, h2⟩ := ih (sendStep c w)
      exact ⟨t1 ++ t2, by rw [runSends, h2, h1, List.append_assoc]⟩
  obtain ⟨tail, h⟩ := main cs w
  refine ⟨?_, ?_, ⟨tail, h⟩⟩
  · rw [h]; simp
  · rw [h]; exact List.take_left _ _

/-- Claim C2, counterexample: for the related entry
`("carry_over", "Can leave carry over?")` the suggestion button's click
sends and appends the intent key `"carry_over"`, not the human-readable
question text — the request body and the appended user message both carry
the key, and the key differs from the question. -/
theorem c2_click_counterexample :
    ((relatedButtonClick ("carry_over", "Can leave carry over?") 5 "T1"
        (FetchOutcome.resp true (JsonParse.parsed
          { message := some "Yes, up to 5 days.", reply := none, related := none }))
        6 "T2"
        { storage := { token := some "tok" },
          chat := { inputMessage := "", messages := [], isLoading := false, error := "",
                    related := some [("carry_over", "Can leave carry over?")] } }).snd.requests.map
        Request.bodyMessage = ["carry_over"]) ∧
    ((relatedButtonClick ("carry_over", "Can leave carry over?") 5 "T1"
        (FetchOutcome.resp true (JsonParse.parsed
          { message := some "Yes, up to 5 days.", reply := none, related := none }))
        6 "T2"
        { storage := { token := some "tok" },
          chat := { inputMessage := "", messages := [], isLoading := false, error := "",
                    related := some [("carry_over", "Can leave carry over?")] } }).fst.chat.messages.map
        Message.text = ["carry_over", "Yes, up to 5 days."]) ∧
    "carry_over" ≠ "Can leave carry over?" := by
  refine ⟨rfl, ?_, by decide⟩
  simp [relatedButtonClick, handleRelatedClick, sendMessage, sendMessageSettle,
    sendMessagePre, userMessageOf, botMessageOf, extractReply, jsStrOr, fallbackText]

/-- Claim C2 as amended: clicking the suggestion button of a related entry
`(intent, question)` triggers exactly the behaviour of submitting the
entry's intent key — the click is `sendMessage` applied to the key, the
single request's body carries the key, and the appended user message's
text is the key (not the question text). -/
theorem c2_amended_click_sends_key (entry : String × String) (now : Nat) (ts1 : String)
    (o : FetchOutcome) (respNow : Nat) (ts2 : String) (w : World) (tok : String)
    (htok : w.storage.token = some tok) :
    relatedButtonClick entry now ts1 o respNow ts2 w =
      sendMessage entry.fst now ts1 o respNow ts2 w ∧
    (relatedButtonClick entry now ts1 o respNow ts2 w).snd.requests.map
      Request.bodyMessage = [entry.fst] ∧
    (sendMessagePre entry.fst now ts1 w.chat).messages =
      w.chat.messages ++ [userMessageOf entry.fst now ts1] := by
  refine ⟨rfl, ?_, rfl⟩
  simp [relatedButtonClick, handleRelatedClick, sendMessage, htok, requestOf]

theorem c2_amended_click_sends_key_witness :
    (relatedButtonClick ("leave_policy", "What is the leave policy?") 9 "T1"
        (FetchOutcome.reject ThrownValue.nonError) 9 "T2"
        { storage := { token := some "tok" },
          chat := { inputMessage := "", messages := [], isLoading := false, error := "",
                    related := some [("leave_policy", "What is the leave policy?")] } }).snd.requests.map
      Request.bodyMessage = ["leave_policy"] :=
  (c2_amended_click_sends_key ("leave_policy", "What is the leave policy?") 9 "T1"
    (FetchOutcome.reject ThrownValue.nonError) 9 "T2"
    { storage := { token := some "tok" },
      chat := { inputMessage := "", messages := [], isLoading := false, error := "",
                related := some [("leave_policy", "What is the leave policy?")] } }
    "tok" rfl).2.1

/-- Claim C9, counterexample: message ids are not pairwise distinct for all
creation-time inputs.  A first send at time 100 whose response arrives at
time 100 appends a bot message with id `"101"` (`Date.now() + 1`); a second
send at time 101 appends a user message with the same id `"101"`. -/
theorem c9_ids_counterexample :
    ((runSends
        [{ text := "hi", now := 100, ts1 := "T1",
           outcome := FetchOutcome.resp true (JsonParse.parsed
             { message := some "ok", reply := none, related := none }),
           respNow := 100, ts2 := "T2" },
         { text := "again", now := 101, ts1 := "T3",
           outcome := FetchOutcome.reject ThrownValue.nonError,
           respNow := 102, ts2 := "T4" }]
        { storage := { token := some "tok" },
          chat := { inputMessage := "", messages := [], isLoading := false,
                    error := "", related := none } }).chat.messages.map Message.id =
      ["100", "101", "101"]) ∧
    ¬ List.Nodup ["100", "101", "101"] := by
  constructor
  · decide
  · decide

/-- Claim C9 as amended: each id is derived from its creation time — the
user message's id is the decimal string of the call-time clock and the bot
message's id is the decimal string of the response-time clock plus one —
and within a single successful send the two appended ids are distinct
whenever the clock does not go backwards; across separate sends ids can
collide (see the counterexample), so pairwise distinctness for all
creation-time inputs does not hold. -/
theorem c9_amended_ids (messageText : String) (now : Nat) (ts1 : String) (b : RespBody)
    (respNow : Nat) (ts2 : String) (w : World) (tok : String)
    (htok : w.storage.token = some tok) (hclock : now ≤ respNow) :
    (sendMessage messageText now ts1 (FetchOutcome.resp true (JsonParse.parsed b))
        respNow ts2 w).fst.chat.messages =
      w.chat.messages ++ [userMessageOf messageText now ts1, botMessageOf b respNow ts2] ∧
    (userMessageOf messageText now ts1).id = Nat.repr now ∧
    (botMessageOf b respNow ts2).id = Nat.repr (respNow + 1) ∧
    (userMessageOf messageText now ts1).id ≠ (botMessageOf b respNow ts2).id := by
  refine ⟨?_, rfl, rfl, ?_⟩
  · simp [sendMessage, htok, sendMessageSettle, sendMessagePre]
  · intro h
    have h2 : Nat.repr now = Nat.repr (respNow + 1) := h
    have h3 := natRepr_injective h2
    omega

theorem c9_amended_ids_witness :
    (3 : Nat) ≤ 3 ∧
    (userMessageOf "x" 3 "T1").id ≠
      (botMessageOf { message := none, reply := none, related := none } 3 "T2").id :=
  ⟨by decide,
   (c9_amended_ids "x" 3 "T1" { message := none, reply := none, related := none } 3 "T2"
      { storage := { token := some "k" },
        chat := { inputMessage := "", messages := [], isLoading := false,
                  error := "", related := none } }
      "k" rfl (by decide)).2.2.2⟩

end ChatPage
